import Mathlib

/-!
Verification of the round-simulation core of a browser room-escape game
("Controls Not Included" / Room Escape prototype).

The JavaScript source is shallowly embedded as follows:
* JS numbers are modelled as exact rationals (`ℚ`); all arithmetic used by
  the core (addition, subtraction, multiplication, comparison, min/max,
  squaring) is exact in `ℚ`.
* Every call to `Math.random()` is modelled as an oracle value passed in
  explicitly (a field of a draw structure, or a function from indices to
  draws).  No claim under consideration depends on correlations between
  draws, so naming each draw point separately is a faithful renaming of
  the single global random stream.
* `Math.sin` (used only for the obstacle zig-zag wobble) is modelled as an
  oracle function `sinO : ℚ → ℚ` passed to the obstacle-movement update.
* `Math.cos(angle) * speed` / `Math.sin(angle) * speed` velocity draws are
  modelled by directly drawing the two velocity components, and the phase
  draw `Math.random() * Math.PI * 2` by directly drawing the phase, since
  trigonometric functions and π fall outside the rational model.  The
  claims verified here do not depend on the distribution of these draws.
* The `setTimeout`-scheduled round advance is modelled as a boolean field
  `nextRoundPending` (`nextRoundTimeoutId !== null` in the source);
  `clearPendingRoundTransition()` corresponds to setting it to `false`.
* Rendering, audio and DOM wiring are external collaborators and are not
  modelled; `gameLoop`'s update block (the part guarded by `!paused`) is
  modelled by `gameTick`.
-/

-- ========== Constants (room, player, door) — from the source ==========

def CANVAS_WIDTH : ℚ := 800
def CANVAS_HEIGHT : ℚ := 600

def ROOM_PADDING_X : ℚ := 40
def ROOM_PADDING_TOP : ℚ := 120
def ROOM_PADDING_BOTTOM : ℚ := 40

def ROOM_LEFT : ℚ := ROOM_PADDING_X
def ROOM_TOP : ℚ := ROOM_PADDING_TOP
def ROOM_WIDTH : ℚ := CANVAS_WIDTH - ROOM_PADDING_X * 2
def ROOM_HEIGHT : ℚ := CANVAS_HEIGHT - ROOM_PADDING_TOP - ROOM_PADDING_BOTTOM

def PLAYER_SIZE : ℚ := 32
def PLAYER_SPEED : ℚ := 4

def DOOR_WIDTH : ℚ := 60
def DOOR_HEIGHT : ℚ := 80

def OBSTACLE_MIN_WIDTH : ℚ := 80
def OBSTACLE_MAX_WIDTH : ℚ := 140
def OBSTACLE_MIN_HEIGHT : ℚ := 80
def OBSTACLE_MAX_HEIGHT : ℚ := 120

def OBSTACLE_BASE_SPEED : ℚ := 0.4
def OBSTACLE_SPEED_VARIATION : ℚ := 0.4
def OBSTACLE_TELEPORT_CHANCE_PER_SECOND : ℚ := 0.08

def AUTO_REVERSE_MIN_MS : ℚ := 3000
def AUTO_REVERSE_MAX_MS : ℚ := 6000

/-- Source `getNextAutoReverseDelay()`, with the `Math.random()` draw passed
in as `roll`. -/
def getNextAutoReverseDelay (roll : ℚ) : ℚ :=
  AUTO_REVERSE_MIN_MS + roll * (AUTO_REVERSE_MAX_MS - AUTO_REVERSE_MIN_MS)

def MIN_SURVIVAL_TIME_MS : ℚ := 5000
def MAX_SURVIVAL_TIME_MS : ℚ := 10000

/-- Minimum spacing between obstacles and from the player start
(`OBSTACLE_SPACING` local constant in `generateRandomRoom`). -/
def OBSTACLE_SPACING : ℚ := 100

-- ========== Data model ==========

/-- Held movement keys (`const keys = { w, a, s, d }`). -/
structure Keys where
  w : Bool
  a : Bool
  s : Bool
  d : Bool
deriving DecidableEq, Repr

/-- Obstacle record `{ x, y, width, height, vx, vy, zigzagPhase }`. -/
structure Obstacle where
  x : ℚ
  y : ℚ
  width : ℚ
  height : ℚ
  vx : ℚ
  vy : ℚ
  zigzagPhase : ℚ
deriving DecidableEq, Repr

/-- Decoy portal effect tag (`effect: 'teleport' | 'shield'`). -/
inductive PortalEffect where
  | teleport
  | shield
deriving DecidableEq, Repr

/-- Fake door / decoy portal record `{ x, y, width, height, effect }`. -/
structure FakeDoor where
  x : ℚ
  y : ℚ
  width : ℚ
  height : ℚ
  effect : PortalEffect
deriving DecidableEq, Repr

/-- Round rule variant (`'none' | 'flipY' | 'slowPlayer' | 'fastPlayer'`). -/
inductive RoundRule where
  | none
  | flipY
  | slowPlayer
  | fastPlayer
deriving DecidableEq, Repr

/-- The game's mutable top-level state (the `let` variables of the source). -/
structure GameState where
  currentRound : ℕ
  playerX : ℚ
  playerY : ℚ
  doorX : ℚ
  doorY : ℚ
  obstacles : List Obstacle
  fakeDoors : List FakeDoor
  playerStartX : ℚ
  playerStartY : ℚ
  reversedControls : Bool
  gameWon : Bool
  gameLost : Bool
  doorUnlocked : Bool
  shieldActive : Bool
  paused : Bool
  pauseStartTime : ℚ
  roundStartTime : ℚ
  requiredSurvivalTime : ℚ
  lastAutoReverseTime : ℚ
  nextAutoReverseDelay : ℚ
  playerSpeedMultiplier : ℚ
  currentRoundRule : RoundRule
  showingTutorial : Bool
  tutorialMessage : String
  screenShakeTime : ℚ
  screenShakeIntensity : ℚ
  keys : Keys
  nextRoundPending : Bool
deriving DecidableEq, Repr

-- ========== Random-draw oracles ==========

/-- One obstacle-placement attempt's four `Math.random()` draws
(`obsW`, `obsH`, `obsX`, `obsY` lines of the placement loop). -/
structure AttemptDraw where
  wRoll : ℚ
  hRoll : ℚ
  xRoll : ℚ
  yRoll : ℚ
deriving DecidableEq, Repr

/-- The velocity/phase draws made for a successfully placed obstacle.
`vx`/`vy` stand for `Math.cos(angle) * speed` / `Math.sin(angle) * speed`,
and `zigzagPhase` for `Math.random() * Math.PI * 2` (see file header). -/
structure VelDraw where
  vx : ℚ
  vy : ℚ
  zigzagPhase : ℚ
deriving DecidableEq, Repr

/-- One fake-door placement attempt's two `Math.random()` draws. -/
structure FakeDraw where
  xRoll : ℚ
  yRoll : ℚ
deriving DecidableEq, Repr

/-- All draws consumed by one call of `generateRandomRoom`, indexed per
slot and per attempt. -/
structure RoomRand where
  variantRoll : ℚ
  doorYRoll : ℚ
  requiredSurvivalRoll : ℚ
  autoReverseRoll : ℚ
  attemptDraw : ℕ → ℕ → AttemptDraw
  velocityDraw : ℕ → VelDraw
  fakeAttemptDraw : ℕ → ℕ → FakeDraw
  effectRoll : ℕ → ℚ

/-- Per-obstacle draws of one `updateObstaclesMovement` tick: the teleport
roll and, in case the teleport fires, the new position draws and the new
velocity (standing for the speed/angle redraw, see file header). -/
structure ObstacleRand where
  roll : ℚ
  posU : ℚ
  posV : ℚ
  newVx : ℚ
  newVy : ℚ
deriving DecidableEq, Repr

-- ========== Random room generation (`generateRandomRoom`) ==========

/-- Player spawn x: `ROOM_LEFT + startOffsetX` with `startOffsetX = 20`.
Hoisted to a named constant (the source computes it inline); the value is
identical. -/
def spawnX : ℚ := ROOM_LEFT + 20

/-- Player spawn y: `ROOM_TOP + (ROOM_HEIGHT - PLAYER_SIZE) / 2`. -/
def spawnY : ℚ := ROOM_TOP + (ROOM_HEIGHT - PLAYER_SIZE) / 2

/-- Door x: `ROOM_LEFT + ROOM_WIDTH - DOOR_WIDTH - doorOffsetX` with
`doorOffsetX = 15`. -/
def doorPosX : ℚ := ROOM_LEFT + ROOM_WIDTH - DOOR_WIDTH - 15

/-- Door y: `ROOM_TOP + doorOffsetY` where
`doorOffsetY = Math.random() * (ROOM_HEIGHT - DOOR_HEIGHT - 40) + 20`. -/
def doorPosY (doorYRoll : ℚ) : ℚ :=
  ROOM_TOP + (doorYRoll * (ROOM_HEIGHT - DOOR_HEIGHT - 40) + 20)

/-- Number of requested obstacles:
`Math.min(round === 1 ? 1 : round === 2 ? 2 : 3 + (round - 3), 10)`. -/
def numObstacles (round : ℕ) : ℕ :=
  min (if round = 1 then 1 else if round = 2 then 2 else 3 + (round - 3)) 10

/-- Number of fake doors (for `round ≥ 2`):
`round === 2 ? 1 : 1 + Math.min(2, Math.floor((round - 2) / 2))`. -/
def numFakeDoors (round : ℕ) : ℕ :=
  if round = 2 then 1 else 1 + min 2 ((round - 2) / 2)

/-- `variants[Math.floor(Math.random() * 4)]` for
`variants = ['none', 'flipY', 'slowPlayer', 'fastPlayer']`.
`Math.random()` lies in `[0,1)`, so the JS index is always 0–3; indices
outside that range (unreachable for genuine draws) are mapped to the last
variant. -/
def variantOfRoll (roll : ℚ) : RoundRule :=
  match Int.toNat ⌊roll * 4⌋ with
  | 0 => RoundRule.none
  | 1 => RoundRule.flipY
  | 2 => RoundRule.slowPlayer
  | _ => RoundRule.fastPlayer

/-- Round-rule selection: rounds 1 and 2 are forced to `none` (tutorial);
from round 3 on the variant is drawn at random. -/
def roundRuleFor (round : ℕ) (variantRoll : ℚ) : RoundRule :=
  if round = 1 then RoundRule.none
  else if round = 2 then RoundRule.none
  else variantOfRoll variantRoll

/-- Tutorial flag and message for the round (rounds 1 and 2 only). -/
def tutorialFor (round : ℕ) : Bool × String :=
  if round = 1 then (true, "Round 1: Use W A S D to move.")
  else if round = 2 then (true, "Round 2: Press R to toggle reversed controls.")
  else (false, "")

/-- Speed multiplier applied by the round rule:
`slowPlayer → 0.6`, `fastPlayer → 1.4`, otherwise `1`. -/
def speedMultiplierFor (rule : RoundRule) : ℚ :=
  if rule = RoundRule.slowPlayer then 0.6
  else if rule = RoundRule.fastPlayer then 1.4
  else 1

/-- A placement candidate: the geometry drawn by one attempt of the
obstacle-placement loop. -/
structure Cand where
  x : ℚ
  y : ℚ
  width : ℚ
  height : ℚ
deriving DecidableEq, Repr

/-- One attempt's candidate geometry:
`obsW = OBSTACLE_MIN_WIDTH + r * (OBSTACLE_MAX_WIDTH - OBSTACLE_MIN_WIDTH)`,
`obsH` analogously, `obsX = ROOM_LEFT + r * (ROOM_WIDTH - obsW)`,
`obsY = ROOM_TOP + r * (ROOM_HEIGHT - obsH)`. -/
def mkCandidate (d : AttemptDraw) : Cand :=
  { x := ROOM_LEFT + d.xRoll * (ROOM_WIDTH -
          (OBSTACLE_MIN_WIDTH + d.wRoll * (OBSTACLE_MAX_WIDTH - OBSTACLE_MIN_WIDTH)))
    y := ROOM_TOP + d.yRoll * (ROOM_HEIGHT -
          (OBSTACLE_MIN_HEIGHT + d.hRoll * (OBSTACLE_MAX_HEIGHT - OBSTACLE_MIN_HEIGHT)))
    width := OBSTACLE_MIN_WIDTH + d.wRoll * (OBSTACLE_MAX_WIDTH - OBSTACLE_MIN_WIDTH)
    height := OBSTACLE_MIN_HEIGHT + d.hRoll * (OBSTACLE_MAX_HEIGHT - OBSTACLE_MIN_HEIGHT) }

/-- `overlapsPlayerStart` check of the placement loop: AABB test of the
candidate against the player spawn box inflated by
`playerStartMargin = OBSTACLE_SPACING`. -/
def overlapsPlayerStart (pX pY x y w h : ℚ) : Bool :=
  decide (x + w > pX - OBSTACLE_SPACING) &&
  decide (x < pX + PLAYER_SIZE + OBSTACLE_SPACING) &&
  decide (y + h > pY - OBSTACLE_SPACING) &&
  decide (y < pY + PLAYER_SIZE + OBSTACLE_SPACING)

/-- `overlapsDoor` check of the placement loop: AABB test of the candidate
against the door box inflated by `doorMargin = 50`. -/
def overlapsDoorArea (dX dY x y w h : ℚ) : Bool :=
  decide (x + w > dX - 50) &&
  decide (x < dX + DOOR_WIDTH + 50) &&
  decide (y + h > dY - 50) &&
  decide (y < dY + DOOR_HEIGHT + 50)

/-- The per-existing-obstacle proximity test of the placement loop.  The
source computes `distance = Math.sqrt(distSq)` and tests
`distance < minDistance`.  For real numbers, `sqrt distSq < minDistance`
holds iff `0 < minDistance ∧ distSq < minDistance ^ 2` (a square root is
never below a non-positive bound), which is the square-free form used
here.  For genuine draws `minDistance ≥ OBSTACLE_SPACING = 100 > 0`. -/
def tooCloseToObstacle (x y w h : ℚ) (o : Obstacle) : Bool :=
  decide (0 < OBSTACLE_SPACING + (w + h) / 4 + (o.width + o.height) / 4) &&
  decide ((x + w / 2 - (o.x + o.width / 2)) ^ 2 + (y + h / 2 - (o.y + o.height / 2)) ^ 2 <
          (OBSTACLE_SPACING + (w + h) / 4 + (o.width + o.height) / 4) ^ 2)

/-- Validity of a candidate placement:
`!overlapsPlayerStart && !overlapsDoor && !overlapsOtherObstacle`
(the source's early-`break` loop over existing obstacles is `List.any`). -/
def candidateValid (pX pY dX dY : ℚ) (existing : List Obstacle) (c : Cand) : Bool :=
  !overlapsPlayerStart pX pY c.x c.y c.width c.height &&
  !overlapsDoorArea dX dY c.x c.y c.width c.height &&
  !existing.any (fun o => tooCloseToObstacle c.x c.y c.width c.height o)

/-- The rejection-sampling attempt loop
`while (!valid && attempts < 100)`, as a recursion on the remaining
attempt budget; `j` is the index of the next attempt's draws. -/
def tryPlaceFrom (pX pY dX dY : ℚ) (existing : List Obstacle)
    (draws : ℕ → AttemptDraw) : ℕ → ℕ → Option Cand
  | 0, _ => Option.none
  | fuel + 1, j =>
    if candidateValid pX pY dX dY existing (mkCandidate (draws j)) then
      Option.some (mkCandidate (draws j))
    else
      tryPlaceFrom pX pY dX dY existing draws fuel (j + 1)

/-- One obstacle slot's placement: up to 100 attempts, `none` = skipped. -/
def tryPlaceObstacle (pX pY dX dY : ℚ) (existing : List Obstacle)
    (draws : ℕ → AttemptDraw) : Option Cand :=
  tryPlaceFrom pX pY dX dY existing draws 100 0

/-- Builds the obstacle pushed for a valid placement: geometry from the
candidate, velocity and wobble phase from the slot's draws. -/
def mkObstacle (c : Cand) (v : VelDraw) : Obstacle :=
  { x := c.x, y := c.y, width := c.width, height := c.height,
    vx := v.vx, vy := v.vy, zigzagPhase := v.zigzagPhase }

/-- The tail of one slot's loop body: a valid placement is pushed at the
end of the collection, a skipped slot leaves it unchanged. -/
def placeStep (acc : List Obstacle) (r : Option Cand) (v : VelDraw) : List Obstacle :=
  match r with
  | Option.none => acc
  | Option.some c => acc ++ [mkObstacle c v]

def placeObstaclesGo (pX pY dX dY : ℚ) (rr : RoomRand) :
    ℕ → ℕ → List Obstacle → List Obstacle
  | _, 0, acc => acc
  | i, rem + 1, acc =>
    placeObstaclesGo pX pY dX dY rr (i + 1) rem
      (placeStep acc (tryPlaceObstacle pX pY dX dY acc (rr.attemptDraw i))
        (rr.velocityDraw i))

/-- `FAKE_DOOR_MARGIN` local constant of the fake-door loop. -/
def FAKE_DOOR_MARGIN : ℚ := 40

/-- Fake-door candidate position from one attempt's draws:
`fx = ROOM_LEFT + ROOM_WIDTH/2 + r * (ROOM_WIDTH/2 - width - MARGIN)`,
`fy = ROOM_TOP + r * (ROOM_HEIGHT - height - MARGIN)` with
`width = DOOR_WIDTH * 0.85`, `height = DOOR_HEIGHT * 0.85`. -/
def mkFakeCandidate (d : FakeDraw) : ℚ × ℚ :=
  (ROOM_LEFT + ROOM_WIDTH / 2 +
     d.xRoll * (ROOM_WIDTH / 2 - DOOR_WIDTH * 0.85 - FAKE_DOOR_MARGIN),
   ROOM_TOP + d.yRoll * (ROOM_HEIGHT - DOOR_HEIGHT * 0.85 - FAKE_DOOR_MARGIN))

/-- Fake-door candidate validity: must not overlap the real door (inflated
by `FAKE_DOOR_MARGIN`) nor any obstacle (inflated by 20). -/
def fakeValid (dX dY : ℚ) (obstacles : List Obstacle) (fx fy : ℚ) : Bool :=
  !(decide (fx + DOOR_WIDTH * 0.85 > dX - FAKE_DOOR_MARGIN) &&
    decide (fx < dX + DOOR_WIDTH + FAKE_DOOR_MARGIN) &&
    decide (fy + DOOR_HEIGHT * 0.85 > dY - FAKE_DOOR_MARGIN) &&
    decide (fy < dY + DOOR_HEIGHT + FAKE_DOOR_MARGIN)) &&
  !obstacles.any (fun obs =>
    decide (fx + DOOR_WIDTH * 0.85 > obs.x - 20) &&
    decide (fx < obs.x + obs.width + 20) &&
    decide (fy + DOOR_HEIGHT * 0.85 > obs.y - 20) &&
    decide (fy < obs.y + obs.height + 20))

/-- The fake-door attempt loop `while (!valid && attempts < 80)`. -/
def tryPlaceFakeFrom (dX dY : ℚ) (obstacles : List Obstacle)
    (draws : ℕ → FakeDraw) : ℕ → ℕ → Option (ℚ × ℚ)
  | 0, _ => Option.none
  | fuel + 1, j =>
    if fakeValid dX dY obstacles (mkFakeCandidate (draws j)).1 (mkFakeCandidate (draws j)).2 then
      Option.some (mkFakeCandidate (draws j))
    else
      tryPlaceFakeFrom dX dY obstacles draws fuel (j + 1)

/-- The tail of one fake-door slot's loop body: a valid placement is
pushed with its effect drawn as `teleport` when `Math.random() < 0.5`
(`eRoll`), otherwise `shield`. -/
def placeFakeStep (acc : List FakeDoor) (r : Option (ℚ × ℚ)) (eRoll : ℚ) :
    List FakeDoor :=
  match r with
  | Option.none => acc
  | Option.some fp =>
    acc ++ [{ x := fp.1, y := fp.2,
              width := DOOR_WIDTH * 0.85, height := DOOR_HEIGHT * 0.85,
              effect := if eRoll < 0.5 then PortalEffect.teleport
                        else PortalEffect.shield }]

def placeFakeDoorsGo (dX dY : ℚ) (obstacles : List Obstacle) (rr : RoomRand) :
    ℕ → ℕ → List FakeDoor → List FakeDoor
  | _, 0, acc => acc
  | i, rem + 1, acc =>
    placeFakeDoorsGo dX dY obstacles rr (i + 1) rem
      (placeFakeStep acc (tryPlaceFakeFrom dX dY obstacles (rr.fakeAttemptDraw i) 80 0)
        (rr.effectRoll i))

/-- `generateRandomRoom()`: resets the round-scoped state, picks the round
rule, places the player, door, obstacles and fake doors.  `now` is the
current timestamp (`performance.now()`), `rr` the bundle of random draws. -/
def generateRandomRoom (now : ℚ) (rr : RoomRand) (st : GameState) : GameState :=
  { st with
    nextRoundPending := false,
    gameWon := false,
    gameLost := false,
    doorUnlocked := false,
    reversedControls := false,
    shieldActive := false,
    paused := false,
    pauseStartTime := 0,
    roundStartTime := now,
    requiredSurvivalTime := MIN_SURVIVAL_TIME_MS +
      rr.requiredSurvivalRoll * (MAX_SURVIVAL_TIME_MS - MIN_SURVIVAL_TIME_MS),
    lastAutoReverseTime := now,
    nextAutoReverseDelay := getNextAutoReverseDelay rr.autoReverseRoll,
    currentRoundRule := roundRuleFor st.currentRound rr.variantRoll,
    showingTutorial := (tutorialFor st.currentRound).1,
    tutorialMessage := (tutorialFor st.currentRound).2,
    playerSpeedMultiplier := speedMultiplierFor (roundRuleFor st.currentRound rr.variantRoll),
    playerX := spawnX,
    playerY := spawnY,
    playerStartX := spawnX,
    playerStartY := spawnY,
    doorX := doorPosX,
    doorY := doorPosY rr.doorYRoll,
    obstacles := placeObstaclesGo spawnX spawnY doorPosX (doorPosY rr.doorYRoll) rr 0
      (numObstacles st.currentRound) [],
    fakeDoors :=
      if 2 ≤ st.currentRound then
        placeFakeDoorsGo doorPosX (doorPosY rr.doorYRoll)
          (placeObstaclesGo spawnX spawnY doorPosX (doorPosY rr.doorYRoll) rr 0
            (numObstacles st.currentRound) [])
          rr 0 (numFakeDoors st.currentRound) []
      else [] }

-- ========== Input (keyboard) ==========

/-- The keyboard keys the game reacts to (`e.key.toLowerCase()`); `other`
stands for every remaining key. -/
inductive GameKey where
  | escape
  | r
  | w
  | a
  | s
  | d
  | other
deriving DecidableEq, Repr

/-- `handleKeyDown(e)`.  `kRepeat` is `e.repeat`; `now` is the current
timestamp; `rr` supplies the draws of the `generateRandomRoom` call made
on restart (R while lost). -/
def handleKeyDown (key : GameKey) (kRepeat : Bool) (now : ℚ) (rr : RoomRand)
    (st : GameState) : GameState :=
  if kRepeat then st
  else
    match key with
    | GameKey.escape =>
      if !st.gameWon && !st.gameLost then
        if !st.paused then
          { st with paused := true, pauseStartTime := now }
        else
          { st with
            roundStartTime := st.roundStartTime + (now - st.pauseStartTime),
            lastAutoReverseTime := st.lastAutoReverseTime + (now - st.pauseStartTime),
            paused := false,
            pauseStartTime := 0 }
      else st
    | GameKey.r =>
      if st.paused then st
      else if st.gameLost then
        generateRandomRoom now rr { st with currentRound := 1 }
      else
        { st with reversedControls := !st.reversedControls }
    | GameKey.w => if st.paused then st else { st with keys := { st.keys with w := true } }
    | GameKey.a => if st.paused then st else { st with keys := { st.keys with a := true } }
    | GameKey.s => if st.paused then st else { st with keys := { st.keys with s := true } }
    | GameKey.d => if st.paused then st else { st with keys := { st.keys with d := true } }
    | GameKey.other => st

/-- `handleKeyUp(e)`: ignored entirely while paused; otherwise clears the
held flag of a movement key. -/
def handleKeyUp (key : GameKey) (st : GameState) : GameState :=
  if st.paused then st
  else
    match key with
    | GameKey.w => { st with keys := { st.keys with w := false } }
    | GameKey.a => { st with keys := { st.keys with a := false } }
    | GameKey.s => { st with keys := { st.keys with s := false } }
    | GameKey.d => { st with keys := { st.keys with d := false } }
    | _ => st

-- ========== Movement: apply WASD, with optional reversed controls ==========

/-- The pre-clamp displacement `(dx, dy)` computed by `updatePlayer` from
the held keys and the effective speed, under the normal or reversed
mapping.  Reversed: W=down, S=up, A=right, D=left; normal: W=up, S=down,
A=left, D=right. -/
def playerDisplacement (reversedControls : Bool) (keys : Keys)
    (effectiveSpeed : ℚ) : ℚ × ℚ :=
  if reversedControls then
    ((if keys.a then effectiveSpeed else 0) + (if keys.d then -effectiveSpeed else 0),
     (if keys.w then effectiveSpeed else 0) + (if keys.s then -effectiveSpeed else 0))
  else
    ((if keys.a then -effectiveSpeed else 0) + (if keys.d then effectiveSpeed else 0),
     (if keys.w then -effectiveSpeed else 0) + (if keys.s then effectiveSpeed else 0))

/-- `updatePlayer()`: no-op while paused/won/lost; otherwise move by the
displacement at effective speed `PLAYER_SPEED * playerSpeedMultiplier` and
clamp into the room rectangle. -/
def updatePlayer (st : GameState) : GameState :=
  if st.paused || st.gameWon || st.gameLost then st
  else
    { st with
      playerX := max ROOM_LEFT (min (ROOM_LEFT + ROOM_WIDTH - PLAYER_SIZE)
        (st.playerX + (playerDisplacement st.reversedControls st.keys
          (PLAYER_SPEED * st.playerSpeedMultiplier)).1)),
      playerY := max ROOM_TOP (min (ROOM_TOP + ROOM_HEIGHT - PLAYER_SIZE)
        (st.playerY + (playerDisplacement st.reversedControls st.keys
          (PLAYER_SPEED * st.playerSpeedMultiplier)).2)) }

-- ========== Collision: player vs obstacles (lethal) ==========

/-- AABB overlap test of the player box against one obstacle
(`px + ps > obs.x && px < obs.x + obs.width && ...`). -/
def obstacleHit (px py : ℚ) (o : Obstacle) : Bool :=
  decide (px + PLAYER_SIZE > o.x) && decide (px < o.x + o.width) &&
  decide (py + PLAYER_SIZE > o.y) && decide (py < o.y + o.height)

/-- The indexed scan of `checkObstacleCollision`'s `for` loop: returns the
obstacle list with the first overlapping obstacle removed
(`obstacles.splice(i, 1)` at the first hit index), or `none` when no
obstacle overlaps the player. -/
def removeFirstHit (px py : ℚ) : List Obstacle → Option (List Obstacle)
  | [] => Option.none
  | o :: rest =>
    if obstacleHit px py o then Option.some rest
    else (removeFirstHit px py rest).map (fun l => o :: l)

/-- `checkObstacleCollision()`: on the first player/obstacle overlap,
either consume the shield and destroy that one obstacle, or set
`gameLost`; the boolean is the function's return value. -/
def checkObstacleCollision (st : GameState) : GameState × Bool :=
  if st.paused || st.gameLost || st.gameWon then (st, false)
  else
    match removeFirstHit st.playerX st.playerY st.obstacles with
    | Option.none => (st, false)
    | Option.some rest =>
      if st.shieldActive then
        ({ st with obstacles := rest, shieldActive := false,
                   screenShakeTime := 220, screenShakeIntensity := 7 }, true)
      else
        ({ st with gameLost := true, showingTutorial := false, tutorialMessage := "",
                   screenShakeTime := 300, screenShakeIntensity := 10 }, true)

-- ========== Survival time check ==========

/-- `checkSurvivalTime()`: unlock the door once the elapsed round time
reaches the round's required survival time. -/
def checkSurvivalTime (now : ℚ) (st : GameState) : GameState :=
  if st.paused || st.doorUnlocked || st.gameLost || st.gameWon then st
  else if st.requiredSurvivalTime ≤ now - st.roundStartTime then
    { st with doorUnlocked := true }
  else st

-- ========== Collision: player vs door ==========

/-- `checkDoorCollision()`: a no-op unless active and unlocked; on overlap
sets `gameWon`, clears the tutorial and schedules the round advance
(`setTimeout`, modelled by `nextRoundPending := true`). -/
def checkDoorCollision (st : GameState) : GameState :=
  if st.paused || st.gameWon || st.gameLost || !st.doorUnlocked then st
  else if decide (st.playerX + PLAYER_SIZE > st.doorX) &&
          decide (st.playerX < st.doorX + DOOR_WIDTH) &&
          decide (st.playerY + PLAYER_SIZE > st.doorY) &&
          decide (st.playerY < st.doorY + DOOR_HEIGHT) then
    { st with gameWon := true, showingTutorial := false, tutorialMessage := "",
              nextRoundPending := true }
  else st

-- ========== Auto-toggle reversed controls ==========

/-- `updateAutoReverse()`: once the scheduled delay has elapsed, flip
`reversedControls` and redraw the next delay (`autoRoll` is the
`Math.random()` draw of `getNextAutoReverseDelay`). -/
def updateAutoReverse (now autoRoll : ℚ) (st : GameState) : GameState :=
  if st.paused || st.gameWon || st.gameLost then st
  else if st.nextAutoReverseDelay ≤ now - st.lastAutoReverseTime then
    { st with reversedControls := !st.reversedControls,
              lastAutoReverseTime := now,
              nextAutoReverseDelay := getNextAutoReverseDelay autoRoll }
  else st

-- ========== Obstacle movement ==========

/-- Fixed per-tick delta time `dt = 1 / 60` of `updateObstaclesMovement`. -/
def dtFixed : ℚ := 1 / 60

/-- `wobbleStrength` local constant of the obstacle move. -/
def wobbleStrength : ℚ := 0.3

/-- The normal per-obstacle move of one tick: advance the zig-zag phase,
move by velocity plus perpendicular sinusoidal wobble, and bounce off the
room boundary (position clamped, velocity component reflected).  `sinO`
is the `Math.sin` oracle.  The source's legacy branch defaulting a missing
velocity (`typeof obs.vx !== 'number'`) is unrepresentable here because
the fields are typed. -/
def moveObstacleCore (sinO : ℚ → ℚ) (obs : Obstacle) : Obstacle :=
  let zigzagPhase := obs.zigzagPhase + dtFixed * 3
  let x := obs.x + obs.vx + (-obs.vy * wobbleStrength * sinO zigzagPhase)
  let y := obs.y + obs.vy + (obs.vx * wobbleStrength * sinO zigzagPhase)
  let xvx : ℚ × ℚ :=
    if x < ROOM_LEFT then (ROOM_LEFT, |obs.vx|)
    else if ROOM_LEFT + ROOM_WIDTH - obs.width < x then
      (ROOM_LEFT + ROOM_WIDTH - obs.width, -|obs.vx|)
    else (x, obs.vx)
  let yvy : ℚ × ℚ :=
    if y < ROOM_TOP then (ROOM_TOP, |obs.vy|)
    else if ROOM_TOP + ROOM_HEIGHT - obs.height < y then
      (ROOM_TOP + ROOM_HEIGHT - obs.height, -|obs.vy|)
    else (y, obs.vy)
  { x := xvx.1, y := yvy.1, width := obs.width, height := obs.height,
    vx := xvx.2, vy := yvy.2, zigzagPhase := zigzagPhase }

/-- One obstacle's full per-tick update: the normal move, then — when the
teleport roll falls below `OBSTACLE_TELEPORT_CHANCE_PER_SECOND * dt` — the
relocation to a random in-room position with a redrawn velocity, which
overwrites the just-computed move (as in the source, where the teleport
block runs last and reassigns `x`, `y`, `vx`, `vy`). -/
def moveObstacle (sinO : ℚ → ℚ) (rnd : ObstacleRand) (obs : Obstacle) : Obstacle :=
  let o1 := moveObstacleCore sinO obs
  if rnd.roll < OBSTACLE_TELEPORT_CHANCE_PER_SECOND * dtFixed then
    { o1 with
      x := ROOM_LEFT + rnd.posU * (ROOM_WIDTH - obs.width),
      y := ROOM_TOP + rnd.posV * (ROOM_HEIGHT - obs.height),
      vx := rnd.newVx, vy := rnd.newVy }
  else o1

/-- Index-threading map over the obstacle list (the source's `for..of`
loop; each obstacle uses its own draws `rnds i`). -/
def mapObstacles (f : ℕ → Obstacle → Obstacle) : ℕ → List Obstacle → List Obstacle
  | _, [] => []
  | i, o :: rest => f i o :: mapObstacles f (i + 1) rest

/-- `updateObstaclesMovement()`: per-tick update of every obstacle. -/
def updateObstaclesMovement (sinO : ℚ → ℚ) (rnds : ℕ → ObstacleRand)
    (st : GameState) : GameState :=
  if st.paused || st.gameWon || st.gameLost then st
  else
    { st with
      obstacles := mapObstacles (fun i o => moveObstacle sinO (rnds i) o) 0 st.obstacles }

-- ========== Fake door collision handling ==========

/-- AABB overlap test of the player box against one fake door. -/
def fakeDoorHit (px py : ℚ) (fd : FakeDoor) : Bool :=
  decide (px + PLAYER_SIZE > fd.x) && decide (px < fd.x + fd.width) &&
  decide (py + PLAYER_SIZE > fd.y) && decide (py < fd.y + fd.height)

/-- Effect of touching a fake door: shield portals grant the shield,
teleport portals snap the player back to spawn. -/
def applyFakeDoor (st : GameState) (fd : FakeDoor) : GameState :=
  if fd.effect = PortalEffect.shield then
    { st with shieldActive := true, screenShakeTime := 140, screenShakeIntensity := 4 }
  else
    { st with playerX := st.playerStartX, playerY := st.playerStartY,
              screenShakeTime := 160, screenShakeIntensity := 5 }

/-- The scan of `checkFakeDoorCollision`'s loop: apply the first
overlapping fake door's effect (the source returns after the first hit). -/
def fakeDoorScan (st : GameState) : List FakeDoor → GameState
  | [] => st
  | fd :: rest =>
    if fakeDoorHit st.playerX st.playerY fd then applyFakeDoor st fd
    else fakeDoorScan st rest

/-- `checkFakeDoorCollision()`. -/
def checkFakeDoorCollision (st : GameState) : GameState :=
  if st.paused || st.gameWon || st.gameLost then st
  else fakeDoorScan st st.fakeDoors

-- ========== Main game loop (update block) ==========

/-- The screen-shake decay at the end of `gameLoop`'s update block. -/
def shakeDecay (st : GameState) : GameState :=
  if 0 < st.screenShakeTime then
    { st with screenShakeTime :=
        if st.screenShakeTime - 16 < 0 then 0 else st.screenShakeTime - 16 }
  else st

/-- One unrendered tick of `gameLoop()`: when not paused, run the gameplay
systems in the source's order, then decay the screen shake; when paused,
the whole update block is skipped (drawing is external and unmodelled). -/
def gameTick (now autoRoll : ℚ) (sinO : ℚ → ℚ) (rnds : ℕ → ObstacleRand)
    (st : GameState) : GameState :=
  if !st.paused then
    shakeDecay
      (checkDoorCollision
        (checkFakeDoorCollision
          ((checkObstacleCollision
            (updateObstaclesMovement sinO rnds
              (updatePlayer
                (checkSurvivalTime now
                  (updateAutoReverse now autoRoll st))))).1)))
  else st

-- ========== Derived placement predicates ==========

/-- A placed obstacle keeps the configured margins: its box does not meet
the spawn box inflated by `OBSTACLE_SPACING` nor the door box inflated by
the door margin. -/
def obstacleOK (pX pY dX dY : ℚ) (o : Obstacle) : Prop :=
  overlapsPlayerStart pX pY o.x o.y o.width o.height = false ∧
  overlapsDoorArea dX dY o.x o.y o.width o.height = false

/-- Two placed obstacles respect the configured minimum distance: their
center-to-center distance is at least
`minDistance = OBSTACLE_SPACING + (w₁ + h₁)/4 + (w₂ + h₂)/4`, expressed
square-free as `minDistance ≤ 0 ∨ minDistance² ≤ distance²` (for genuine
draws `minDistance ≥ 100 > 0`, so this is distance ≥ minDistance). -/
def farEnough (a b : Obstacle) : Prop :=
  OBSTACLE_SPACING + (a.width + a.height) / 4 + (b.width + b.height) / 4 ≤ 0 ∨
  (OBSTACLE_SPACING + (a.width + a.height) / 4 + (b.width + b.height) / 4) ^ 2 ≤
    (a.x + a.width / 2 - (b.x + b.width / 2)) ^ 2 +
    (a.y + a.height / 2 - (b.y + b.height / 2)) ^ 2

-- ========== Concrete states and draws for evaluation ==========

/-- No movement key held. -/
def keysNone : Keys := { w := false, a := false, s := false, d := false }

/-- An obstacle well away from the spawn position. -/
def obsAway : Obstacle :=
  { x := 300, y := 150, width := 100, height := 100, vx := 0.5, vy := 0.5, zigzagPhase := 0 }

/-- An obstacle overlapping the player box of `baseState`. -/
def obsAtPlayer : Obstacle :=
  { x := 50, y := 320, width := 100, height := 100, vx := 0.5, vy := 0.5, zigzagPhase := 0 }

/-- A concrete mid-round state: player at spawn, door on the right,
round active and unpaused. -/
def baseState : GameState :=
  { currentRound := 3, playerX := 60, playerY := 324, doorX := 685, doorY := 200,
    obstacles := [], fakeDoors := [], playerStartX := 60, playerStartY := 324,
    reversedControls := false, gameWon := false, gameLost := false,
    doorUnlocked := false, shieldActive := false, paused := false,
    pauseStartTime := 0, roundStartTime := 0, requiredSurvivalTime := 7000,
    lastAutoReverseTime := 0, nextAutoReverseDelay := 4000,
    playerSpeedMultiplier := 1, currentRoundRule := RoundRule.none,
    showingTutorial := false, tutorialMessage := "", screenShakeTime := 0,
    screenShakeIntensity := 0, keys := keysNone, nextRoundPending := false }

/-- A locked-door state in which the player box lies fully inside the
door box (door at 685..745 × 200..280, player at 700..732 × 220..252). -/
def lockedOverlapState : GameState :=
  { baseState with playerX := 700, playerY := 220 }

/-- Active state with the shield and one obstacle overlapping the player. -/
def shieldHitState : GameState :=
  { baseState with shieldActive := true, obstacles := [obsAway, obsAtPlayer] }

/-- Active state without the shield and one obstacle overlapping the player. -/
def bareHitState : GameState :=
  { baseState with obstacles := [obsAtPlayer] }

/-- A paused mid-round state with the W key held. -/
def pausedState : GameState :=
  { baseState with paused := true, pauseStartTime := 1000,
                   keys := { keysNone with w := true } }

/-- A won state with pending shake. -/
def wonState : GameState :=
  { baseState with gameWon := true, obstacles := [obsAtPlayer], screenShakeTime := 100 }

/-- A fixed draw bundle for `generateRandomRoom` (all rolls zero). -/
def rrZero : RoomRand :=
  { variantRoll := 0, doorYRoll := 0, requiredSurvivalRoll := 0, autoReverseRoll := 0,
    attemptDraw := fun _ _ => { wRoll := 0, hRoll := 0, xRoll := 0, yRoll := 0 },
    velocityDraw := fun _ => { vx := 0.4, vy := 0, zigzagPhase := 0 },
    fakeAttemptDraw := fun _ _ => { xRoll := 0, yRoll := 0 },
    effectRoll := fun _ => 0 }

/-- An attempt draw whose candidate sits exactly on the player spawn of a
fresh round (spawn box at 60..92 × 324..356, candidate at 60..140 ×
324..404), so every placement attempt using it is rejected. -/
def drawOnSpawn : AttemptDraw :=
  { wRoll := 0, hRoll := 0, xRoll := 1 / 32, yRoll := 17 / 30 }

/-- Obstacle-update draws whose teleport roll fires (`0 < 1 / 750`). -/
def teleRand : ObstacleRand :=
  { roll := 0, posU := 1 / 2, posV := 1 / 2, newVx := 0.3, newVy := -0.3 }

/-- Obstacle-update draws whose teleport roll does not fire. -/
def noTeleRand : ObstacleRand :=
  { roll := 1, posU := 0, posV := 0, newVx := 0, newVy := 0 }

-- ========== Theorems ==========

/-- C1: while `doorUnlocked` is false, `checkDoorCollision` changes no
state — whatever the player/door overlap — so `gameWon` stays false and no
round advance is scheduled. -/
theorem checkDoorCollision_locked_noop (st : GameState)
    (h : st.doorUnlocked = false) : checkDoorCollision st = st := by
  simp [checkDoorCollision, h]

/-- Witness for C1: a concrete locked state whose player box lies fully
inside the door box is returned unchanged, with `gameWon` still false and
no pending round advance. -/
theorem checkDoorCollision_locked_noop_witness :
    lockedOverlapState.doorUnlocked = false ∧
    checkDoorCollision lockedOverlapState = lockedOverlapState ∧
    (lockedOverlapState.doorX ≤ lockedOverlapState.playerX ∧
     lockedOverlapState.playerX + PLAYER_SIZE ≤ lockedOverlapState.doorX + DOOR_WIDTH ∧
     lockedOverlapState.doorY ≤ lockedOverlapState.playerY ∧
     lockedOverlapState.playerY + PLAYER_SIZE ≤ lockedOverlapState.doorY + DOOR_HEIGHT) ∧
    (checkDoorCollision lockedOverlapState).gameWon = false ∧
    (checkDoorCollision lockedOverlapState).nextRoundPending = false := by
  refine ⟨rfl, checkDoorCollision_locked_noop lockedOverlapState rfl, ?_, ?_, ?_⟩
  · norm_num [lockedOverlapState, baseState, PLAYER_SIZE, DOOR_WIDTH, DOOR_HEIGHT]
  · rw [checkDoorCollision_locked_noop lockedOverlapState rfl]; rfl
  · rw [checkDoorCollision_locked_noop lockedOverlapState rfl]; rfl

/-- C10: a key-up event delivered while paused leaves the state — in
particular the held-key flags — unchanged, so a movement key released
during pause is still recorded as held afterwards. -/
theorem handleKeyUp_paused_noop (key : GameKey) (st : GameState)
    (h : st.paused = true) : handleKeyUp key st = st := by
  simp [handleKeyUp, h]

/-- Witness for C10: releasing W in a concrete paused state with W held
leaves the state unchanged and W still held. -/
theorem handleKeyUp_paused_noop_witness :
    pausedState.paused = true ∧
    handleKeyUp GameKey.w pausedState = pausedState ∧
    (handleKeyUp GameKey.w pausedState).keys.w = true := by
  refine ⟨rfl, handleKeyUp_paused_noop GameKey.w pausedState rfl, ?_⟩
  rw [handleKeyUp_paused_noop GameKey.w pausedState rfl]; rfl

/-- C4: for every held-key set and every round-rule multiplier, the
pre-clamp displacement of `updatePlayer` under reversed controls is the
exact componentwise negation of the normal one at the same effective
speed `PLAYER_SPEED * multiplier`; in particular holding W and A gives
`(-s, -s)` normally and `(s, s)` reversed. -/
theorem playerDisplacement_reversed_neg (keys : Keys) (m : ℚ) :
    (playerDisplacement true keys (PLAYER_SPEED * m)).1 =
      -(playerDisplacement false keys (PLAYER_SPEED * m)).1 ∧
    (playerDisplacement true keys (PLAYER_SPEED * m)).2 =
      -(playerDisplacement false keys (PLAYER_SPEED * m)).2 ∧
    playerDisplacement false { w := true, a := true, s := false, d := false }
        (PLAYER_SPEED * m) = (-(PLAYER_SPEED * m), -(PLAYER_SPEED * m)) ∧
    playerDisplacement true { w := true, a := true, s := false, d := false }
        (PLAYER_SPEED * m) = (PLAYER_SPEED * m, PLAYER_SPEED * m) := by
  obtain ⟨w, a, s, d⟩ := keys
  refine ⟨?_, ?_, ?_, ?_⟩ <;>
    simp only [playerDisplacement, if_true, if_false, Bool.false_eq_true] <;>
    cases w <;> cases a <;> cases s <;> cases d <;> simp

/-- C3: entering pause records the pause timestamp; resuming after a
real-time duration `t1 - t0` shifts `roundStartTime` and
`lastAutoReverseTime` forward by exactly that duration, so the remaining
time to unlock and to the next auto-reverse right after resume equal
their values right before the pause. -/
theorem pauseResume_preserves_timers (st : GameState) (t0 t1 : ℚ) (rr : RoomRand)
    (hp : st.paused = false) (hw : st.gameWon = false) (hl : st.gameLost = false) :
    (handleKeyDown GameKey.escape false t0 rr st).paused = true ∧
    (handleKeyDown GameKey.escape false t0 rr st).pauseStartTime = t0 ∧
    (handleKeyDown GameKey.escape false t1 rr
        (handleKeyDown GameKey.escape false t0 rr st)).paused = false ∧
    (handleKeyDown GameKey.escape false t1 rr
        (handleKeyDown GameKey.escape false t0 rr st)).roundStartTime =
      st.roundStartTime + (t1 - t0) ∧
    (handleKeyDown GameKey.escape false t1 rr
        (handleKeyDown GameKey.escape false t0 rr st)).lastAutoReverseTime =
      st.lastAutoReverseTime + (t1 - t0) ∧
    (handleKeyDown GameKey.escape false t1 rr
        (handleKeyDown GameKey.escape false t0 rr st)).requiredSurvivalTime -
      (t1 - (handleKeyDown GameKey.escape false t1 rr
        (handleKeyDown GameKey.escape false t0 rr st)).roundStartTime) =
      st.requiredSurvivalTime - (t0 - st.roundStartTime) ∧
    (handleKeyDown GameKey.escape false t1 rr
        (handleKeyDown GameKey.escape false t0 rr st)).nextAutoReverseDelay -
      (t1 - (handleKeyDown GameKey.escape false t1 rr
        (handleKeyDown GameKey.escape false t0 rr st)).lastAutoReverseTime) =
      st.nextAutoReverseDelay - (t0 - st.lastAutoReverseTime) := by
  have h1 : handleKeyDown GameKey.escape false t0 rr st =
      { st with paused := true, pauseStartTime := t0 } := by
    simp [handleKeyDown, hp, hw, hl]
  have h2 : handleKeyDown GameKey.escape false t1 rr
      { st with paused := true, pauseStartTime := t0 } =
      { st with roundStartTime := st.roundStartTime + (t1 - t0),
                lastAutoReverseTime := st.lastAutoReverseTime + (t1 - t0),
                paused := false, pauseStartTime := 0 } := by
    simp [handleKeyDown, hw, hl]
  rw [h1, h2]
  refine ⟨rfl, rfl, rfl, rfl, rfl, by ring, by ring⟩

/-- Witness for C3: concrete pause at time 1000 and resume at time 3500
on a concrete active state. -/
theorem pauseResume_preserves_timers_witness :
    baseState.paused = false ∧
    (handleKeyDown GameKey.escape false 1000 rrZero baseState).paused = true ∧
    (handleKeyDown GameKey.escape false 1000 rrZero baseState).pauseStartTime = 1000 ∧
    (handleKeyDown GameKey.escape false 3500 rrZero
        (handleKeyDown GameKey.escape false 1000 rrZero baseState)).paused = false ∧
    (handleKeyDown GameKey.escape false 3500 rrZero
        (handleKeyDown GameKey.escape false 1000 rrZero baseState)).roundStartTime =
      baseState.roundStartTime + (3500 - 1000) ∧
    (handleKeyDown GameKey.escape false 3500 rrZero
        (handleKeyDown GameKey.escape false 1000 rrZero baseState)).lastAutoReverseTime =
      baseState.lastAutoReverseTime + (3500 - 1000) ∧
    (handleKeyDown GameKey.escape false 3500 rrZero
        (handleKeyDown GameKey.escape false 1000 rrZero baseState)).requiredSurvivalTime -
      (3500 - (handleKeyDown GameKey.escape false 3500 rrZero
        (handleKeyDown GameKey.escape false 1000 rrZero baseState)).roundStartTime) =
      baseState.requiredSurvivalTime - (1000 - baseState.roundStartTime) := by
  have h := pauseResume_preserves_timers baseState 1000 3500 rrZero rfl rfl rfl
  exact ⟨rfl, h.1, h.2.1, h.2.2.1, h.2.2.2.1, h.2.2.2.2.1, h.2.2.2.2.2.1⟩

/-- C5: an unpaused tick runs exactly — and in this order — the
auto-reverse check, the door-unlock check, the player move, the obstacle
move, the obstacle collision check, the decoy-portal check and the door
collision check (followed by the screen-shake decay); a paused tick
changes nothing, and in a won or lost (or paused) state every one of the
seven gameplay steps is itself a no-op. -/
theorem gameTick_order_and_noops (now autoRoll : ℚ) (sinO : ℚ → ℚ)
    (rnds : ℕ → ObstacleRand) (st : GameState) :
    (st.paused = true → gameTick now autoRoll sinO rnds st = st) ∧
    (st.paused = false →
      gameTick now autoRoll sinO rnds st =
        shakeDecay
          (checkDoorCollision
            (checkFakeDoorCollision
              ((checkObstacleCollision
                (updateObstaclesMovement sinO rnds
                  (updatePlayer
                    (checkSurvivalTime now
                      (updateAutoReverse now autoRoll st))))).1)))) ∧
    (st.gameWon = true ∨ st.gameLost = true ∨ st.paused = true →
      updateAutoReverse now autoRoll st = st ∧
      checkSurvivalTime now st = st ∧
      updatePlayer st = st ∧
      updateObstaclesMovement sinO rnds st = st ∧
      checkObstacleCollision st = (st, false) ∧
      checkFakeDoorCollision st = st ∧
      checkDoorCollision st = st) := by
  refine ⟨?_, ?_, ?_⟩
  · intro h; simp [gameTick, h]
  · intro h; simp [gameTick, h]
  · intro h
    rcases h with h | h | h <;>
      exact ⟨by simp [updateAutoReverse, h], by simp [checkSurvivalTime, h],
             by simp [updatePlayer, h], by simp [updateObstaclesMovement, h],
             by simp [checkObstacleCollision, h], by simp [checkFakeDoorCollision, h],
             by simp [checkDoorCollision, h]⟩

/-- Witness for C5: the paused state is fixed by a tick, and in a concrete
won state every gameplay step leaves the state unchanged. -/
theorem gameTick_order_and_noops_witness :
    pausedState.paused = true ∧
    gameTick 5000 0 (fun _ => 0) (fun _ => noTeleRand) pausedState = pausedState ∧
    wonState.gameWon = true ∧
    updateAutoReverse 5000 0 wonState = wonState ∧
    updatePlayer wonState = wonState ∧
    updateObstaclesMovement (fun _ => 0) (fun _ => noTeleRand) wonState = wonState ∧
    checkObstacleCollision wonState = (wonState, false) ∧
    checkDoorCollision wonState = wonState := by
  have hp := gameTick_order_and_noops 5000 0 (fun _ => 0) (fun _ => noTeleRand) pausedState
  have hw := gameTick_order_and_noops 5000 0 (fun _ => 0) (fun _ => noTeleRand) wonState
  have hw' := hw.2.2 (Or.inl rfl)
  exact ⟨rfl, hp.1 rfl, rfl, hw'.1, hw'.2.2.1, hw'.2.2.2.1, hw'.2.2.2.2.1,
         hw'.2.2.2.2.2.2⟩

/-- If some member of the list overlaps the player, the scan finds one. -/
theorem removeFirstHit_some_of_mem {px py : ℚ} {o : Obstacle} :
    ∀ {l : List Obstacle}, o ∈ l → obstacleHit px py o = true →
      ∃ rest, removeFirstHit px py l = Option.some rest := by
  intro l
  induction l with
  | nil => intro hm; cases hm
  | cons a l ih =>
    intro hm hh
    by_cases ha : obstacleHit px py a = true
    · exact ⟨l, by simp [removeFirstHit, ha]⟩
    · rcases List.mem_cons.mp hm with rfl | hm'
      · exact absurd hh ha
      · obtain ⟨rest, hr⟩ := ih hm' hh
        exact ⟨a :: rest, by simp [removeFirstHit, ha, hr]⟩

/-- A successful scan removes exactly one element. -/
theorem removeFirstHit_length {px py : ℚ} :
    ∀ {l rest : List Obstacle}, removeFirstHit px py l = Option.some rest →
      rest.length + 1 = l.length := by
  intro l
  induction l with
  | nil => intro rest h; simp [removeFirstHit] at h
  | cons a l ih =>
    intro rest h
    by_cases ha : obstacleHit px py a = true
    · simp [removeFirstHit, ha] at h
      subst h; simp
    · rcases hrl : removeFirstHit px py l with _ | l'
      · simp [removeFirstHit, ha, hrl] at h
      · simp [removeFirstHit, ha, hrl] at h
        subst h
        have := ih hrl
        simp [List.length_cons]
        omega

/-- The scan removes precisely the lowest-index overlapping element:
its result is `eraseIdx` at `findIdx`. -/
theorem removeFirstHit_eraseIdx {px py : ℚ} :
    ∀ {l rest : List Obstacle}, removeFirstHit px py l = Option.some rest →
      List.findIdx (obstacleHit px py) l < l.length ∧
      rest = l.eraseIdx (List.findIdx (obstacleHit px py) l) := by
  intro l
  induction l with
  | nil => intro rest h; simp [removeFirstHit] at h
  | cons a l ih =>
    intro rest h
    by_cases ha : obstacleHit px py a = true
    · simp [removeFirstHit, ha] at h
      subst h
      simp [List.findIdx_cons, ha]
    · rcases hrl : removeFirstHit px py l with _ | l'
      · simp [removeFirstHit, ha, hrl] at h
      · simp [removeFirstHit, ha, hrl] at h
        subst h
        obtain ⟨h1, h2⟩ := ih hrl
        constructor
        · simpa [List.findIdx_cons, ha] using Nat.succ_lt_succ h1
        · simp [List.findIdx_cons, ha, List.eraseIdx]
          exact h2

/-- C2: in an active state where the player overlaps some obstacle,
`checkObstacleCollision` with the shield removes exactly one obstacle,
clears the shield and does not set `gameLost`; without the shield it sets
`gameLost` and leaves the obstacle collection unchanged. -/
theorem checkObstacleCollision_shield_spec (st : GameState)
    (hp : st.paused = false) (hw : st.gameWon = false) (hl : st.gameLost = false)
    (hov : ∃ o ∈ st.obstacles, obstacleHit st.playerX st.playerY o = true) :
    (st.shieldActive = true →
      (checkObstacleCollision st).1.obstacles.length + 1 = st.obstacles.length ∧
      (checkObstacleCollision st).1.shieldActive = false ∧
      (checkObstacleCollision st).1.gameLost = false) ∧
    (st.shieldActive = false →
      (checkObstacleCollision st).1.gameLost = true ∧
      (checkObstacleCollision st).1.obstacles = st.obstacles) := by
  obtain ⟨o, hm, hh⟩ := hov
  obtain ⟨rest, hr⟩ := removeFirstHit_some_of_mem hm hh
  have hlen := removeFirstHit_length hr
  constructor
  · intro hs
    simp [checkObstacleCollision, hp, hw, hl, hr, hs]
    omega
  · intro hs
    simp [checkObstacleCollision, hp, hw, hl, hr, hs]

/-- Witness for C2: a concrete shielded hit destroys exactly one of two
obstacles and clears the shield without losing; the same hit without the
shield loses and keeps the collection. -/
theorem checkObstacleCollision_shield_spec_witness :
    shieldHitState.shieldActive = true ∧
    (checkObstacleCollision shieldHitState).1.obstacles.length + 1 =
      shieldHitState.obstacles.length ∧
    (checkObstacleCollision shieldHitState).1.shieldActive = false ∧
    (checkObstacleCollision shieldHitState).1.gameLost = false ∧
    bareHitState.shieldActive = false ∧
    (checkObstacleCollision bareHitState).1.gameLost = true ∧
    (checkObstacleCollision bareHitState).1.obstacles = bareHitState.obstacles := by
  have hs := checkObstacleCollision_shield_spec shieldHitState rfl rfl rfl
    ⟨obsAtPlayer, by simp [shieldHitState, baseState],
     by norm_num [obstacleHit, obsAtPlayer, shieldHitState, baseState, PLAYER_SIZE]⟩
  have hb := checkObstacleCollision_shield_spec bareHitState rfl rfl rfl
    ⟨obsAtPlayer, by simp [bareHitState, baseState],
     by norm_num [obstacleHit, obsAtPlayer, bareHitState, baseState, PLAYER_SIZE]⟩
  have hs' := hs.1 rfl
  have hb' := hb.2 rfl
  exact ⟨rfl, hs'.1, hs'.2.1, hs'.2.2, rfl, hb'.1, hb'.2⟩

/-- C9: each call removes at most one obstacle — when one is removed it is
exactly the lowest-index obstacle overlapping the player (`eraseIdx` at
`findIdx`), the scan having stopped at the first overlap; in every other
case (no overlap, no shield, or inactive state) the collection is
untouched. -/
theorem checkObstacleCollision_at_most_first (st : GameState) :
    (checkObstacleCollision st).1.obstacles = st.obstacles ∨
    (st.shieldActive = true ∧
     List.findIdx (obstacleHit st.playerX st.playerY) st.obstacles <
       st.obstacles.length ∧
     (checkObstacleCollision st).1.obstacles =
       st.obstacles.eraseIdx (List.findIdx (obstacleHit st.playerX st.playerY)
         st.obstacles)) := by
  by_cases hg : (st.paused || st.gameLost || st.gameWon) = true
  · left; simp [checkObstacleCollision, hg]
  · rcases hrl : removeFirstHit st.playerX st.playerY st.obstacles with _ | rest
    · left; simp [checkObstacleCollision, hg, hrl]
    · by_cases hs : st.shieldActive = true
      · right
        obtain ⟨h1, h2⟩ := removeFirstHit_eraseIdx hrl
        refine ⟨hs, h1, ?_⟩
        simp [checkObstacleCollision, hg, hrl, hs]
        exact h2
      · left
        simp [checkObstacleCollision, hg, hrl, hs]

/-- C7: on each tick each obstacle is updated with its own independent
draws; its teleport event fires exactly when its roll falls below the
fixed per-tick probability `OBSTACLE_TELEPORT_CHANCE_PER_SECOND * dt`,
and on such a tick the obstacle's position and velocity are exactly the
teleport draw — the affine image of the unit draws covering the whole
room — regardless of the normal move-and-bounce outcome, which is
discarded; when the roll does not fire, the update is exactly the normal
velocity-plus-wobble move with boundary bounce. -/
theorem moveObstacle_teleport_spec (sinO : ℚ → ℚ) (rnd : ObstacleRand)
    (obs : Obstacle) :
    (rnd.roll < OBSTACLE_TELEPORT_CHANCE_PER_SECOND * dtFixed →
      moveObstacle sinO rnd obs =
        { x := ROOM_LEFT + rnd.posU * (ROOM_WIDTH - obs.width),
          y := ROOM_TOP + rnd.posV * (ROOM_HEIGHT - obs.height),
          width := obs.width, height := obs.height,
          vx := rnd.newVx, vy := rnd.newVy,
          zigzagPhase := obs.zigzagPhase + dtFixed * 3 }) ∧
    (¬ rnd.roll < OBSTACLE_TELEPORT_CHANCE_PER_SECOND * dtFixed →
      moveObstacle sinO rnd obs = moveObstacleCore sinO obs) ∧
    (∀ (rnds : ℕ → ObstacleRand) (st : GameState),
      st.paused = false → st.gameWon = false → st.gameLost = false →
      (updateObstaclesMovement sinO rnds st).obstacles =
        mapObstacles (fun i o => moveObstacle sinO (rnds i) o) 0 st.obstacles) := by
  refine ⟨?_, ?_, ?_⟩
  · intro h
    simp only [moveObstacle, if_pos h]
    rfl
  · intro h
    simp only [moveObstacle, if_neg h]
  · intro rnds st hp hw hl
    simp [updateObstaclesMovement, hp, hw, hl]

/-- Witness for C7: a firing roll (`0 < 1/750`) relocates a concrete
obstacle to the drawn in-room position with the drawn velocity, and a
non-firing roll (`1`) yields exactly the normal move. -/
theorem moveObstacle_teleport_spec_witness :
    (teleRand.roll < OBSTACLE_TELEPORT_CHANCE_PER_SECOND * dtFixed) ∧
    moveObstacle (fun _ => 0) teleRand obsAway =
      { x := ROOM_LEFT + teleRand.posU * (ROOM_WIDTH - obsAway.width),
        y := ROOM_TOP + teleRand.posV * (ROOM_HEIGHT - obsAway.height),
        width := obsAway.width, height := obsAway.height,
        vx := teleRand.newVx, vy := teleRand.newVy,
        zigzagPhase := obsAway.zigzagPhase + dtFixed * 3 } ∧
    (¬ noTeleRand.roll < OBSTACLE_TELEPORT_CHANCE_PER_SECOND * dtFixed) ∧
    moveObstacle (fun _ => 0) noTeleRand obsAway =
      moveObstacleCore (fun _ => 0) obsAway := by
  have h1 : teleRand.roll < OBSTACLE_TELEPORT_CHANCE_PER_SECOND * dtFixed := by
    norm_num [teleRand, OBSTACLE_TELEPORT_CHANCE_PER_SECOND, dtFixed]
  have h2 : ¬ noTeleRand.roll < OBSTACLE_TELEPORT_CHANCE_PER_SECOND * dtFixed := by
    norm_num [noTeleRand, OBSTACLE_TELEPORT_CHANCE_PER_SECOND, dtFixed]
  exact ⟨h1, (moveObstacle_teleport_spec (fun _ => 0) teleRand obsAway).1 h1,
         h2, (moveObstacle_teleport_spec (fun _ => 0) noTeleRand obsAway).2.1 h2⟩

/-- Decomposition of a passed validity check into its three conditions. -/
theorem candidateValid_parts {pX pY dX dY : ℚ} {existing : List Obstacle} {c : Cand}
    (h : candidateValid pX pY dX dY existing c = true) :
    overlapsPlayerStart pX pY c.x c.y c.width c.height = false ∧
    overlapsDoorArea dX dY c.x c.y c.width c.height = false ∧
    ∀ o ∈ existing, tooCloseToObstacle c.x c.y c.width c.height o = false := by
  simp only [candidateValid, Bool.and_eq_true, Bool.not_eq_true'] at h
  refine ⟨h.1.1, h.1.2, fun o ho => ?_⟩
  have := h.2
  rw [List.any_eq_false] at this
  simpa using this o ho

/-- A candidate that passed the proximity check is far enough from the
obstacle it was checked against. -/
theorem farEnough_of_not_tooClose {x y w h : ℚ} {o : Obstacle} (v : VelDraw)
    (hf : tooCloseToObstacle x y w h o = false) :
    farEnough (mkObstacle { x := x, y := y, width := w, height := h } v) o := by
  simp only [farEnough, mkObstacle]
  by_cases h1 : (0 : ℚ) < OBSTACLE_SPACING + (w + h) / 4 + (o.width + o.height) / 4
  · right
    by_contra h2
    push_neg at h2
    rw [tooCloseToObstacle] at hf
    simp [h1, h2] at hf
  · exact Or.inl (le_of_not_lt h1)

/-- The minimum-distance relation is symmetric. -/
theorem farEnough_symm {a b : Obstacle} (h : farEnough a b) : farEnough b a := by
  unfold farEnough at h ⊢
  have hm : OBSTACLE_SPACING + (b.width + b.height) / 4 + (a.width + a.height) / 4 =
      OBSTACLE_SPACING + (a.width + a.height) / 4 + (b.width + b.height) / 4 := by ring
  have hd : (b.x + b.width / 2 - (a.x + a.width / 2)) ^ 2 +
      (b.y + b.height / 2 - (a.y + a.height / 2)) ^ 2 =
      (a.x + a.width / 2 - (b.x + b.width / 2)) ^ 2 +
      (a.y + a.height / 2 - (b.y + b.height / 2)) ^ 2 := by ring
  rw [hm, hd]
  exact h

/-- A candidate returned by the attempt loop passed the validity check. -/
theorem tryPlaceFrom_valid {pX pY dX dY : ℚ} {existing : List Obstacle}
    {draws : ℕ → AttemptDraw} :
    ∀ {fuel j : ℕ} {c : Cand},
      tryPlaceFrom pX pY dX dY existing draws fuel j = Option.some c →
      candidateValid pX pY dX dY existing c = true := by
  intro fuel
  induction fuel with
  | zero => intro j c h; simp [tryPlaceFrom] at h
  | succ fuel ih =>
    intro j c h
    by_cases hv : candidateValid pX pY dX dY existing (mkCandidate (draws j)) = true
    · simp only [tryPlaceFrom, hv, if_true, Option.some.injEq] at h
      subst h; exact hv
    · simp only [tryPlaceFrom, hv, if_false, Bool.false_eq_true] at h
      exact ih h

/-- The attempt loop returns `none` exactly when all `fuel` candidates,
drawn at consecutive attempt indices starting from `j`, are invalid. -/
theorem tryPlaceFrom_none_iff {pX pY dX dY : ℚ} {existing : List Obstacle}
    {draws : ℕ → AttemptDraw} :
    ∀ (fuel j : ℕ),
      tryPlaceFrom pX pY dX dY existing draws fuel j = Option.none ↔
      ∀ t, t < fuel →
        candidateValid pX pY dX dY existing (mkCandidate (draws (j + t))) = false := by
  intro fuel
  induction fuel with
  | zero => intro j; simp [tryPlaceFrom]
  | succ fuel ih =>
    intro j
    by_cases hv : candidateValid pX pY dX dY existing (mkCandidate (draws j)) = true
    · simp only [tryPlaceFrom, hv, if_true]
      constructor
      · intro h; cases h
      · intro h
        have := h 0 (Nat.succ_pos fuel)
        rw [Nat.add_zero] at this
        rw [hv] at this
        cases this
    · simp only [tryPlaceFrom, hv, if_false, Bool.false_eq_true]
      rw [ih (j + 1)]
      constructor
      · intro h t ht
        rcases t with _ | t
        · rw [Nat.add_zero]; exact Bool.eq_false_iff.mpr hv
        · have := h t (by omega)
          have harith : j + 1 + t = j + (t + 1) := by omega
          rwa [harith] at this
      · intro h t ht
        have := h (t + 1) (by omega)
        have harith : j + (t + 1) = j + 1 + t := by omega
        rwa [harith] at this

/-- Invariant of the obstacle-slot loop: margins and pairwise spacing hold
for every obstacle ever appended, and at most one obstacle is added per
remaining slot. -/
theorem placeObstaclesGo_spec (pX pY dX dY : ℚ) (rr : RoomRand) :
    ∀ (rem i : ℕ) (acc : List Obstacle),
      (∀ o ∈ acc, obstacleOK pX pY dX dY o) →
      List.Pairwise farEnough acc →
      ((∀ o ∈ placeObstaclesGo pX pY dX dY rr i rem acc, obstacleOK pX pY dX dY o) ∧
       List.Pairwise farEnough (placeObstaclesGo pX pY dX dY rr i rem acc) ∧
       (placeObstaclesGo pX pY dX dY rr i rem acc).length ≤ acc.length + rem) := by
  intro rem
  induction rem with
  | zero =>
    intro i acc hOK hPW
    have h0 : placeObstaclesGo pX pY dX dY rr i 0 acc = acc := rfl
    rw [h0]
    exact ⟨hOK, hPW, by omega⟩
  | succ rem ih =>
    intro i acc hOK hPW
    have hsucc : placeObstaclesGo pX pY dX dY rr i (rem + 1) acc =
        placeObstaclesGo pX pY dX dY rr (i + 1) rem
          (placeStep acc (tryPlaceObstacle pX pY dX dY acc (rr.attemptDraw i))
            (rr.velocityDraw i)) := by
      rw [placeObstaclesGo]
    rcases htp : tryPlaceObstacle pX pY dX dY acc (rr.attemptDraw i) with _ | c
    · rw [hsucc, htp]
      have hstep : placeStep acc Option.none (rr.velocityDraw i) = acc := rfl
      rw [hstep]
      have hres := ih (i + 1) acc hOK hPW
      refine ⟨hres.1, hres.2.1, ?_⟩
      have := hres.2.2
      omega
    · have hv := tryPlaceFrom_valid
        (show tryPlaceFrom pX pY dX dY acc (rr.attemptDraw i) 100 0 = Option.some c from htp)
      obtain ⟨hps, hd, hclose⟩ := candidateValid_parts hv
      have hOKnew : obstacleOK pX pY dX dY (mkObstacle c (rr.velocityDraw i)) :=
        ⟨hps, hd⟩
      have hOK' : ∀ o ∈ acc ++ [mkObstacle c (rr.velocityDraw i)],
          obstacleOK pX pY dX dY o := by
        intro o ho
        rcases List.mem_append.mp ho with ho' | ho'
        · exact hOK o ho'
        · rw [List.mem_singleton.mp ho']
          exact hOKnew
      have hPW' : List.Pairwise farEnough (acc ++ [mkObstacle c (rr.velocityDraw i)]) := by
        rw [List.pairwise_append]
        refine ⟨hPW, List.pairwise_singleton _ _, ?_⟩
        intro a ha b hb
        rw [List.mem_singleton.mp hb]
        exact farEnough_symm (farEnough_of_not_tooClose (rr.velocityDraw i) (hclose a ha))
      have hres := ih (i + 1) (acc ++ [mkObstacle c (rr.velocityDraw i)]) hOK' hPW'
      rw [hsucc, htp]
      have hstep : placeStep acc (Option.some c) (rr.velocityDraw i) =
          acc ++ [mkObstacle c (rr.velocityDraw i)] := rfl
      rw [hstep]
      refine ⟨hres.1, hres.2.1, ?_⟩
      have h1 := hres.2.2
      simp only [List.length_append, List.length_singleton] at h1
      omega

/-- C6: for every round index and every draw bundle, every obstacle placed
by `generateRandomRoom` clears the player spawn box and the door box by
the configured margins, every pair of placed obstacles respects the
configured minimum center distance, and at most the requested number of
obstacles is placed (skipped slots simply shrink the collection). -/
theorem generateRandomRoom_margins (now : ℚ) (rr : RoomRand) (st : GameState) :
    (∀ o ∈ (generateRandomRoom now rr st).obstacles,
      obstacleOK (generateRandomRoom now rr st).playerX
        (generateRandomRoom now rr st).playerY
        (generateRandomRoom now rr st).doorX
        (generateRandomRoom now rr st).doorY o) ∧
    List.Pairwise farEnough (generateRandomRoom now rr st).obstacles ∧
    (generateRandomRoom now rr st).obstacles.length ≤ numObstacles st.currentRound := by
  have hobs : (generateRandomRoom now rr st).obstacles =
      placeObstaclesGo spawnX spawnY doorPosX (doorPosY rr.doorYRoll) rr 0
        (numObstacles st.currentRound) [] := rfl
  have hpx : (generateRandomRoom now rr st).playerX = spawnX := rfl
  have hpy : (generateRandomRoom now rr st).playerY = spawnY := rfl
  have hdx : (generateRandomRoom now rr st).doorX = doorPosX := rfl
  have hdy : (generateRandomRoom now rr st).doorY = doorPosY rr.doorYRoll := rfl
  rw [hobs, hpx, hpy, hdx, hdy]
  have h := placeObstaclesGo_spec spawnX spawnY doorPosX (doorPosY rr.doorYRoll) rr
    (numObstacles st.currentRound) 0 [] (by intro o ho; cases ho) List.Pairwise.nil
  refine ⟨h.1, h.2.1, ?_⟩
  have := h.2.2
  simpa using this

/-- C8: the placement loop for one obstacle slot examines exactly the
attempts below the fixed budget of 100 — it yields `none` precisely when
all 100 drawn candidates are invalid — and a `none` slot is silently
skipped, so the generated collection never exceeds the requested count and
exhaustion is not an error. -/
theorem tryPlaceObstacle_budget (pX pY dX dY : ℚ) (existing : List Obstacle)
    (draws : ℕ → AttemptDraw) :
    (tryPlaceObstacle pX pY dX dY existing draws = Option.none ↔
      ∀ j, j < 100 →
        candidateValid pX pY dX dY existing (mkCandidate (draws j)) = false) ∧
    ∀ (now : ℚ) (rr : RoomRand) (st : GameState),
      (generateRandomRoom now rr st).obstacles.length ≤ numObstacles st.currentRound := by
  constructor
  · rw [show tryPlaceObstacle pX pY dX dY existing draws =
        tryPlaceFrom pX pY dX dY existing draws 100 0 from rfl]
    rw [tryPlaceFrom_none_iff 100 0]
    constructor
    · intro h j hj
      have := h j hj
      simpa using this
    · intro h t ht
      have := h t ht
      simpa using this
  · intro now rr st
    have hobs : (generateRandomRoom now rr st).obstacles =
        placeObstaclesGo spawnX spawnY doorPosX (doorPosY rr.doorYRoll) rr 0
          (numObstacles st.currentRound) [] := rfl
    rw [hobs]
    have h := placeObstaclesGo_spec spawnX spawnY doorPosX (doorPosY rr.doorYRoll) rr
      (numObstacles st.currentRound) 0 [] (by intro o ho; cases ho) List.Pairwise.nil
    have := h.2.2
    simpa using this

/-- Witness for C8: a draw stream whose every candidate sits on the player
spawn exhausts the 100-attempt budget and the slot is skipped, and a
concrete generated round stays within its requested obstacle count. -/
theorem tryPlaceObstacle_budget_witness :
    tryPlaceObstacle spawnX spawnY doorPosX (doorPosY 0) []
      (fun _ => drawOnSpawn) = Option.none ∧
    (generateRandomRoom 0 rrZero baseState).obstacles.length ≤
      numObstacles baseState.currentRound := by
  have h := tryPlaceObstacle_budget spawnX spawnY doorPosX (doorPosY 0) []
    (fun _ => drawOnSpawn)
  constructor
  · apply h.1.mpr
    intro j hj
    norm_num [candidateValid, overlapsPlayerStart, mkCandidate, drawOnSpawn,
      spawnX, spawnY, ROOM_LEFT, ROOM_TOP, ROOM_WIDTH, ROOM_HEIGHT,
      CANVAS_WIDTH, CANVAS_HEIGHT, ROOM_PADDING_X, ROOM_PADDING_TOP,
      ROOM_PADDING_BOTTOM, OBSTACLE_SPACING, PLAYER_SIZE,
      OBSTACLE_MIN_WIDTH, OBSTACLE_MAX_WIDTH, OBSTACLE_MIN_HEIGHT,
      OBSTACLE_MAX_HEIGHT]
  · exact h.2 0 rrZero baseState

/-- Witness for C6: the margins, the pairwise spacing and the count bound
hold for a concrete round-1 generation with the all-zero draw bundle. -/
theorem generateRandomRoom_margins_witness :
    (∀ o ∈ (generateRandomRoom 0 rrZero baseState).obstacles,
      obstacleOK (generateRandomRoom 0 rrZero baseState).playerX
        (generateRandomRoom 0 rrZero baseState).playerY
        (generateRandomRoom 0 rrZero baseState).doorX
        (generateRandomRoom 0 rrZero baseState).doorY o) ∧
    List.Pairwise farEnough (generateRandomRoom 0 rrZero baseState).obstacles ∧
    (generateRandomRoom 0 rrZero baseState).obstacles.length ≤
      numObstacles baseState.currentRound :=
  generateRandomRoom_margins 0 rrZero baseState
